import Mathlib

/-!
Verification of the okd-deploy-webui frontend core against its specification.

The definitions below are shallow embeddings of the JavaScript source:
 - `src/frontend/src/AuthProvider.js` (claims extraction, admin decision,
   the `getToken` effect of the token-refresh `useEffect`),
 - `src/frontend/src/apiClient.js` (the in-memory cluster-data cache and
   `getClusterData`),
 - `src/frontend/src/DeploymentForm.js` (`RFC1123_PATTERN`,
   `validateResourceName`, `validateForm`, `handleSubmit`, `deployToOKD`,
   the storage-class update in `fetchClusterData`, and
   `fallbackStorageClasses`).

JavaScript values that matter to the embedded code paths are modelled by
`JSValue`; JS truthiness is `jsTruthy`.  Role arrays are modelled as arrays
of strings, the only array shape the role-extraction code consumes
(`rolesArray.includes(adminRoleName)` compares against a string, so array
elements of other types can never affect any modelled outcome).
-/

/-- A JSON-ish JavaScript value as it can occur in a JWT claims object.
`vUndefined` doubles for an absent property (JS property access on a
missing key yields `undefined`, which behaves identically in the embedded
code: it is falsy and is not an array). -/
inductive JSValue where
  | vUndefined
  | vNull
  | vBool (b : Bool)
  | vNum (n : Int)
  | vStr (s : String)
  | vArr (xs : List String)
deriving DecidableEq

/-- JavaScript truthiness of a `JSValue`.  Arrays and objects are truthy
regardless of contents; `undefined`, `null`, `false`, `0` and the empty
string are falsy. -/
def jsTruthy : JSValue → Bool
  | JSValue.vUndefined => false
  | JSValue.vNull => false
  | JSValue.vBool b => b
  | JSValue.vNum n => decide (n ≠ 0)
  | JSValue.vStr s => decide (s ≠ "")
  | JSValue.vArr _ => true

/-- JavaScript `a || b`: returns `a` when `a` is truthy, otherwise `b`. -/
def jsOr (a b : JSValue) : JSValue :=
  if jsTruthy a then a else b

/-- Property read `obj[key]` on a JS object modelled as an association
list; a missing key yields `undefined`. -/
def jsGet (fields : List (String × JSValue)) (key : String) : JSValue :=
  match fields.find? (fun p => p.1 == key) with
  | some p => p.2
  | none => JSValue.vUndefined

/-- The verified ID-token claims handed to `AuthProvider.getToken`:
`__raw` (the raw token string) plus the claim properties. -/
structure Claims where
  raw : String
  fields : List (String × JSValue)
deriving DecidableEq

/-- Role extraction from `AuthProvider.js` (`getToken`):
`let roles = claims[namespace] || claims[namespaceRoles] || [];`
`const rolesArray = Array.isArray(roles) ? roles : [];`
where `namespaceRoles` is the namespace key with `"_roles"` appended. -/
def extractRoles (fields : List (String × JSValue)) (ns : String) : List String :=
  let roles := jsOr (jsGet fields ns) (jsOr (jsGet fields (ns ++ "_roles")) (JSValue.vArr []))
  match roles with
  | JSValue.vArr xs => xs
  | _ => []

/-- The React state owned by `AuthProvider`: `accessToken`, `userRoles`
and `isAdmin` (their `useState` hooks). -/
structure AuthState where
  accessToken : Option String
  userRoles : List String
  isAdmin : Bool
deriving DecidableEq

/-- The initial `AuthProvider` state:
`useState(null)`, `useState([])`, `useState(false)`. -/
def initialAuthState : AuthState :=
  { accessToken := none, userRoles := [], isAdmin := false }

/-- One run of the `getToken` effect in `AuthProvider.js`, as a state
transition on `AuthState`.  `claims = none` models both
`getIdTokenClaims()` resolving to a null-ish value (the `if (claims)`
guard fails) and the claims call throwing (the `catch` only logs): in
either case no state setter runs.  When authenticated with claims
present, the three setters run with the extracted values; when not
authenticated, the `else` branch resets all three states. -/
def getTokenEffect (isAuthenticated : Bool) (claims : Option Claims)
    (ns adminRole : String) (s : AuthState) : AuthState :=
  if isAuthenticated then
    match claims with
    | some c =>
      let rolesArray := extractRoles c.fields ns
      { accessToken := some c.raw
        userRoles := rolesArray
        isAdmin := rolesArray.contains adminRole }
    | none => s
  else
    { accessToken := none, userRoles := [], isAdmin := false }

/-- One observed run of the token-refresh effect: the `isAuthenticated`
flag from Auth0 and the claims (if any) delivered during that run. -/
structure EffectInput where
  isAuthenticated : Bool
  claims : Option Claims
deriving DecidableEq

/-- A sequence of token-refresh effect runs, folded over the provider
state. -/
def runAuthTrace (ns adminRole : String) (s : AuthState)
    (l : List EffectInput) : AuthState :=
  l.foldl (fun st inp => getTokenEffect inp.isAuthenticated inp.claims ns adminRole st) s

/-- The role-extraction strategy as the specification literally words it:
read `claims[namespaceKey]`; only if that key is absent, also try
`claims[namespaceKey ++ "_roles"]`; if the chosen value is not an array,
the role set is empty.  (Written from the spec sentence, to be compared
with `extractRoles`, which is written from the source.) -/
def extractRolesClaimed (fields : List (String × JSValue)) (ns : String) : List String :=
  let v :=
    match jsGet fields ns with
    | JSValue.vUndefined => jsGet fields (ns ++ "_roles")
    | w => w
  match v with
  | JSValue.vArr xs => xs
  | _ => []

/-- The amended role-extraction strategy: read `claims[namespaceKey]`;
if that value is falsy (absent, `undefined`, `null`, `false`, `0` or the
empty string), fall back to `claims[namespaceKey ++ "_roles"]`; if the
value finally chosen is not an array, the role set is empty. -/
def extractRolesAmendedSpec (fields : List (String × JSValue)) (ns : String) : List String :=
  let v1 := jsGet fields ns
  let v := if jsTruthy v1 then v1 else jsGet fields (ns ++ "_roles")
  match v with
  | JSValue.vArr xs => xs
  | _ => []

/-- A storage class as returned by the cluster-data endpoint and consumed
by the deployment form. -/
structure StorageClass where
  name : String
  isDefault : Bool
deriving DecidableEq

/-- The payload (`response.data`) of a cluster-data response as the
embedded code paths consume it.  The `namespaces` and `storageClasses`
fields are `Option`s: `some xs` models a JS array value (truthy and
`Array.isArray` regardless of emptiness), `none` models an absent or
non-array value (both fail the `Array.isArray` guard and behave
identically in every embedded consumer).  The per-source error fields of
the real payload are not consumed by any embedded path and are omitted. -/
structure RespData where
  status : String
  message : String
  namespaces : Option (List String)
  storageClasses : Option (List StorageClass)
deriving DecidableEq

/-- The in-memory cache of `apiClient.js`:
`{ clusterData: null, clusterDataTimestamp: 0, ttl: 5 * 60 * 1000 }`.
Timestamps are milliseconds (`Date.now()`), modelled as `Nat`. -/
structure ClusterCache where
  clusterData : Option RespData
  clusterDataTimestamp : Nat
deriving DecidableEq

/-- `cache.ttl`: five minutes in milliseconds. -/
def ttlMs : Nat := 5 * 60 * 1000

/-- Outcome of the network call `apiClient.get("/api/cluster-data")`:
either the server's response payload or a rejection with an error
message. -/
inductive FetchOutcome where
  | success (resp : RespData)
  | failure (errMsg : String)
deriving DecidableEq

/-- The value resolved by the `catch` branch of `getClusterData`:
`{ status: "error", message, namespaces: [], storageClasses: [] }`.
Both list fields are explicit empty arrays. -/
def errorClusterResponse (msg : String) : RespData :=
  { status := "error", message := msg
    namespaces := some [], storageClasses := some [] }

/-- The fetch path of `getClusterData` (the code after the cache check):
on success the response is stored in the cache with the timestamp taken
at the start of the call; on failure the cache is left untouched and the
structured error value is resolved.  The third component counts network
fetches performed (here always 1). -/
def fetchFreshClusterData (outcome : FetchOutcome) (cache : ClusterCache)
    (now : Nat) : RespData × ClusterCache × Nat :=
  match outcome with
  | FetchOutcome.success r =>
      (r, { clusterData := some r, clusterDataTimestamp := now }, 1)
  | FetchOutcome.failure m => (errorClusterResponse m, cache, 1)

/-- `getClusterData` from `apiClient.js`:
`if (cache.clusterData && (now - cache.clusterDataTimestamp < cache.ttl))`
resolve the cached response without fetching; otherwise fetch.  The
result is (resolved response, cache after the call, number of fetches
performed by this call). -/
def getClusterData (outcome : FetchOutcome) (cache : ClusterCache)
    (now : Nat) : RespData × ClusterCache × Nat :=
  match cache.clusterData with
  | some d =>
      if now - cache.clusterDataTimestamp < ttlMs then (d, cache, 0)
      else fetchFreshClusterData outcome cache now
  | none => fetchFreshClusterData outcome cache now

/-- A sequence of `getClusterData` calls at the given times (each call
would see the same fetch outcome were it to fetch), accumulating the
cache state and the total number of fetches performed. -/
def runGets (outcome : FetchOutcome) (cache : ClusterCache)
    (times : List Nat) : ClusterCache × Nat :=
  times.foldl
    (fun acc t =>
      let r := getClusterData outcome acc.1 t
      (r.2.1, acc.2 + r.2.2))
    (cache, 0)

/-- `fallbackStorageClasses` from `DeploymentForm.js`: the default
fallback used when the API does not deliver storage classes. -/
def fallbackStorageClasses : List StorageClass :=
  [{ name := "cs_not_pulled_from_cluster_refresh", isDefault := true }]

/-- The storage-class update performed by `fetchClusterData` in
`DeploymentForm.js` on a resolved response:
`if (response.data.storageClasses && Array.isArray(...)) setStorageClasses(it);`
`else if (!storageClasses.length) setStorageClasses(fallbackStorageClasses);`
`respStorageClasses = some xs` is the array case (a JS array is truthy
even when empty); `none` is the absent/non-array case.  `current` is the
component's current `storageClasses` state; the result is its new
state. -/
def fetchClusterDataStorageClasses (respStorageClasses : Option (List StorageClass))
    (current : List StorageClass) : List StorageClass :=
  match respStorageClasses with
  | some xs => xs
  | none => if current.length = 0 then fallbackStorageClasses else current

/-- Lowercase-alphanumeric character class `[a-z0-9]` of
`RFC1123_PATTERN`. -/
def isLowerAlnum (c : Char) : Bool :=
  (decide ('a' ≤ c) && decide (c ≤ 'z')) || (decide ('0' ≤ c) && decide (c ≤ '9'))

/-- Character class `[-a-z0-9]` of `RFC1123_PATTERN`. -/
def isLabelChar (c : Char) : Bool :=
  c == '-' || isLowerAlnum c

/-- Whether a character list matches one label of `RFC1123_PATTERN`,
i.e. the sub-expression `[a-z0-9]([-a-z0-9]*[a-z0-9])?`: nonempty, every
character in `[-a-z0-9]`, and the first and last characters in
`[a-z0-9]`. -/
def labelMatches (l : List Char) : Bool :=
  match l with
  | [] => false
  | c :: rest =>
      isLowerAlnum c && rest.all isLabelChar &&
      (match rest.getLast? with
       | some d => isLowerAlnum d
       | none => true)

/-- Split a character list at every dot (the pieces exclude the dots);
always yields at least one piece, so the empty input yields one empty
piece. -/
def splitOnDot (l : List Char) : List (List Char) :=
  match l with
  | [] => [[]]
  | c :: rest =>
      let r := splitOnDot rest
      if c = '.' then [] :: r
      else
        match r with
        | h :: t => (c :: h) :: t
        | [] => [[c]]

/-- `RFC1123_PATTERN.test(s)` for the regex
`^[a-z0-9]([-a-z0-9]*[a-z0-9])?(\.[a-z0-9]([-a-z0-9]*[a-z0-9])?)*$`
(identical in `DeploymentForm.js` and `FormComponents.js`).  Since the
label character class excludes the dot, the regex matches exactly the
strings whose dot-separated pieces each match the label sub-expression
(with at least one piece; `splitOnDot` always yields at least one piece,
and an empty piece fails `labelMatches`). -/
def rfc1123Test (s : String) : Bool :=
  (splitOnDot s.toList).all labelMatches

/-- `validateResourceName` from `DeploymentForm.js`:
`if (!name) return false; return RFC1123_PATTERN.test(name);`
(for a string argument, `!name` is true exactly for the empty string). -/
def validateResourceName (name : String) : Bool :=
  if name = "" then false else rfc1123Test name

/-- A storage volume row of the deployment form (an element of
`storageDetails`). -/
structure StorageDetail where
  name : String
  mountPath : String
  size : String
  storageClass : String
  nameError : String
deriving DecidableEq

/-- A secret or configmap row of the deployment form (elements of
`secretsDetails` and `configmapsDetails` have the same shape). -/
structure KVDetail where
  name : String
  key : String
  value : String
  mountType : String
  nameError : String
deriving DecidableEq

/-- The form state read by `validateForm`, `handleSubmit` and
`deployToOKD` in `DeploymentForm.js`.  The port fields are modelled as
the numbers the submission produces via `Number(...)`. -/
structure FormState where
  namespaceName : String
  containerImage : String
  cpuRequest : String
  memoryRequest : String
  containerPort : Nat
  exposeRoute : Bool
  routePort : Nat
  routeHostname : String
  routeDomain : String
  storageRequired : Bool
  storageDetails : List StorageDetail
  secretsRequired : Bool
  secretsDetails : List KVDetail
  configmapsRequired : Bool
  configmapsDetails : List KVDetail
  createNewNamespace : Bool
deriving DecidableEq

/-- The Auth0 user profile fields read at submission time; an absent
`nickname`/`name` is modelled as the empty string (both are falsy in the
`user?.nickname || user?.name || ""` chain, so the collapse is
behaviour-preserving). -/
structure UserProfile where
  nickname : String
  name : String
deriving DecidableEq

/-- `user?.nickname || user?.name || ""` as evaluated when building the
submission body. -/
def requesterNicknameOf (user : Option UserProfile) : String :=
  match user with
  | none => ""
  | some u => if u.nickname ≠ "" then u.nickname else if u.name ≠ "" then u.name else ""

/-- The `storageDetails.forEach` loop of `validateForm`: for each volume
with a nonempty name failing `validateResourceName`, record the keyed
violation `formErrors[storage-index]`. -/
def storageNameErrors (vols : List StorageDetail) : List (String × String) :=
  vols.enum.filterMap (fun p =>
    if p.2.name != "" && !(validateResourceName p.2.name) then
      some ("storage-" ++ toString p.1, "Volume " ++ p.2.name ++ ": Invalid name format")
    else none)

/-- The `secretsDetails.forEach` loop of `validateForm`. -/
def secretNameErrors (secrets : List KVDetail) : List (String × String) :=
  secrets.enum.filterMap (fun p =>
    if p.2.name != "" && !(validateResourceName p.2.name) then
      some ("secret-" ++ toString p.1, "Secret " ++ p.2.name ++ ": Invalid name format")
    else none)

/-- The `configmapsDetails.forEach` loop of `validateForm`. -/
def configmapNameErrors (configmaps : List KVDetail) : List (String × String) :=
  configmaps.enum.filterMap (fun p =>
    if p.2.name != "" && !(validateResourceName p.2.name) then
      some ("configmap-" ++ toString p.1, "ConfigMap " ++ p.2.name ++ ": Invalid name format")
    else none)

/-- `validateForm` from `DeploymentForm.js`, returning the `formErrors`
object as an ordered key/value list (all keys written are distinct):
the namespace is checked only when `createNewNamespace && namespace` is
truthy, the route hostname only when `exposeRoute && routeHostname` is
truthy, and each resource section only when its `...Required` flag is
set; inside a section, only rows with a truthy (nonempty) name are
checked. -/
def validateForm (f : FormState) : List (String × String) :=
  (if f.createNewNamespace && f.namespaceName != "" && !(validateResourceName f.namespaceName) then
     [("namespace", "Invalid namespace name")]
   else [])
  ++ (if f.exposeRoute && f.routeHostname != "" && !(validateResourceName f.routeHostname) then
        [("routeHostname", "Invalid route hostname")]
      else [])
  ++ (if f.storageRequired then storageNameErrors f.storageDetails else [])
  ++ (if f.secretsRequired then secretNameErrors f.secretsDetails else [])
  ++ (if f.configmapsRequired then configmapNameErrors f.configmapsDetails else [])

/-- The row predicate of the `validateForm` storage loop: the row name
is nonempty (truthy) and fails the RFC-1123 check. -/
def badStorageName (v : StorageDetail) : Bool :=
  v.name != "" && !(validateResourceName v.name)

/-- The row predicate of the secret/configmap `validateForm` loops. -/
def badKVName (v : KVDetail) : Bool :=
  v.name != "" && !(validateResourceName v.name)

/-- The request body submitted to the backend (`deploymentData` object
literal). -/
structure DeploymentData where
  namespaceName : String
  containerImage : String
  cpuRequest : String
  memoryRequest : String
  containerPort : Nat
  exposeRoute : Bool
  routePort : Nat
  routeHostname : String
  storageRequired : Bool
  storageDetails : List StorageDetail
  secretsRequired : Bool
  secretsDetails : List KVDetail
  configmapsRequired : Bool
  configmapsDetails : List KVDetail
  createNewNamespace : Bool
  requesterNickname : String
deriving DecidableEq

/-- The `deploymentData` object literal built inside `handleSubmit`
(the generate-yaml path), transcribed from that call site. -/
def handleSubmitBody (f : FormState) (user : Option UserProfile) : DeploymentData :=
  { namespaceName := f.namespaceName
    containerImage := f.containerImage
    cpuRequest := f.cpuRequest
    memoryRequest := f.memoryRequest
    containerPort := f.containerPort
    exposeRoute := f.exposeRoute
    routePort := f.routePort
    routeHostname := if f.exposeRoute then f.routeHostname ++ "." ++ f.routeDomain else ""
    storageRequired := f.storageRequired
    storageDetails := f.storageDetails
    secretsRequired := f.secretsRequired
    secretsDetails := f.secretsDetails
    configmapsRequired := f.configmapsRequired
    configmapsDetails := f.configmapsDetails
    createNewNamespace := f.createNewNamespace
    requesterNickname := requesterNicknameOf user }

/-- The `deploymentData` object literal built inside `deployToOKD`
(the deploy path), transcribed from that call site. -/
def deployToOKDBody (f : FormState) (user : Option UserProfile) : DeploymentData :=
  { namespaceName := f.namespaceName
    containerImage := f.containerImage
    cpuRequest := f.cpuRequest
    memoryRequest := f.memoryRequest
    containerPort := f.containerPort
    exposeRoute := f.exposeRoute
    routePort := f.routePort
    routeHostname := if f.exposeRoute then f.routeHostname ++ "." ++ f.routeDomain else ""
    storageRequired := f.storageRequired
    storageDetails := f.storageDetails
    secretsRequired := f.secretsRequired
    secretsDetails := f.secretsDetails
    configmapsRequired := f.configmapsRequired
    configmapsDetails := f.configmapsDetails
    createNewNamespace := f.createNewNamespace
    requesterNickname := requesterNicknameOf user }

/-- `handleSubmit` from `DeploymentForm.js`: run `validateForm`; when any
violation was collected, alert and return without submitting (`none`);
otherwise submit the built body to generate-yaml (`some body`). -/
def handleSubmit (f : FormState) (user : Option UserProfile) : Option DeploymentData :=
  if (validateForm f).length = 0 then some (handleSubmitBody f user) else none

/-- `deployToOKD` from `DeploymentForm.js`: run `validateForm`; when any
violation was collected, alert and return without submitting (`none`);
otherwise submit the built body to deploy-to-okd (`some body`). -/
def deployToOKD (f : FormState) (user : Option UserProfile) : Option DeploymentData :=
  if (validateForm f).length = 0 then some (deployToOKDBody f user) else none

/-- A previously fetched cluster-data response used as concrete witness
data: a successful payload listing the namespace `demo`. -/
def prevClusterResp : RespData :=
  { status := "success", message := ""
    namespaces := some ["demo"], storageClasses := some [] }

/-- A concrete form whose namespace field holds an invalid name
(`Demo_NS`: uppercase and underscore) while `createNewNamespace` is
unset. -/
def invalidNamespaceForm : FormState :=
  { namespaceName := "Demo_NS"
    containerImage := "nginx:latest"
    cpuRequest := "250m"
    memoryRequest := "256Mi"
    containerPort := 80
    exposeRoute := false
    routePort := 80
    routeHostname := ""
    routeDomain := "example.com"
    storageRequired := false
    storageDetails := []
    secretsRequired := false
    secretsDetails := []
    configmapsRequired := false
    configmapsDetails := []
    createNewNamespace := false }

/-- A concrete valid form exposing a route with hostname `app` on domain
`example.com`. -/
def routeForm : FormState :=
  { namespaceName := "demo"
    containerImage := "nginx:latest"
    cpuRequest := "250m"
    memoryRequest := "256Mi"
    containerPort := 80
    exposeRoute := true
    routePort := 80
    routeHostname := "app"
    routeDomain := "example.com"
    storageRequired := false
    storageDetails := []
    secretsRequired := false
    secretsDetails := []
    configmapsRequired := false
    configmapsDetails := []
    createNewNamespace := false }

/-- A concrete claims object carrying the admin role under the
`custom_roles` key. -/
def adminClaims : Claims :=
  { raw := "tok"
    fields := [("custom_roles", JSValue.vArr ["OKD_Admin", "viewer"])] }

set_option maxRecDepth 10000 in
/-- C1: the resource-name validation accepts well-formed lowercase names
and rejects uppercase and leading/trailing hyphens, but it enforces no
length bound: the 254-character lowercase name is accepted by
`validateResourceName`, although both the claim and the code's own
`ResourceNameTip` tooltip state that names longer than 253 characters
are invalid. -/
theorem validateResourceName_accepts_254_chars :
    (String.mk (List.replicate 254 'a')).length = 254 ∧
    validateResourceName (String.mk (List.replicate 254 'a')) = true ∧
    validateResourceName "my-app" = true ∧
    validateResourceName "web.app" = true ∧
    validateResourceName "Demo" = false ∧
    validateResourceName "demo_ns" = false ∧
    validateResourceName "-app" = false ∧
    validateResourceName "app-" = false := by
  refine ⟨rfl, by decide, by decide, by decide, by decide, by decide, by decide, by decide⟩

/-- C3: after the token-refresh effect runs with valid claims, `isAdmin`
holds exactly when the configured admin role name is a member of the
extracted roles; concretely, the claims `["OKD_Admin", "viewer"]` under
`custom_roles` with admin role `OKD_Admin` give `isAdmin = true`, the
claims `["viewer"]` give `isAdmin = false`, and with no claims delivered
the provider stays in the unauthenticated default state. -/
theorem isAdmin_iff_admin_role_member :
    (∀ (c : Claims) (ns adminRole : String) (s : AuthState),
        ((getTokenEffect true (some c) ns adminRole s).isAdmin = true) ↔
          adminRole ∈ extractRoles c.fields ns) ∧
    (getTokenEffect true (some adminClaims)
        "custom_roles" "OKD_Admin" initialAuthState).isAdmin = true ∧
    (getTokenEffect true
        (some { raw := "tok", fields := [("custom_roles", JSValue.vArr ["viewer"])] })
        "custom_roles" "OKD_Admin" initialAuthState).isAdmin = false ∧
    getTokenEffect true none "custom_roles" "OKD_Admin" initialAuthState =
      initialAuthState := by
  refine ⟨?_, by decide, by decide, rfl⟩
  intro c ns adminRole s
  simp [getTokenEffect, List.contains]

/-- C4 counterexample: under claims where the namespace key is present
but holds the (falsy, non-absent) empty string and the `_roles` key
holds an array, the code falls through to the `_roles` key, while the
claimed strategy (fall through only when the first key is absent) keeps
the first lookup and yields the empty role set. -/
theorem roles_fallthrough_counterexample :
    extractRoles
        [("custom_roles", JSValue.vStr ""), ("custom_roles_roles", JSValue.vArr ["OKD_Admin"])]
        "custom_roles" = ["OKD_Admin"] ∧
    extractRolesClaimed
        [("custom_roles", JSValue.vStr ""), ("custom_roles_roles", JSValue.vArr ["OKD_Admin"])]
        "custom_roles" = [] ∧
    extractRoles
        [("custom_roles", JSValue.vStr ""), ("custom_roles_roles", JSValue.vArr ["OKD_Admin"])]
        "custom_roles" ≠
      extractRolesClaimed
        [("custom_roles", JSValue.vStr ""), ("custom_roles_roles", JSValue.vArr ["OKD_Admin"])]
        "custom_roles" := by
  refine ⟨by decide, by decide, by decide⟩

/-- C4 (amended): role extraction reads `claims[namespaceKey]`; if that
value is falsy (absent or present but falsy), it falls back to
`claims[namespaceKey ++ "_roles"]`; if the value finally chosen is not
an array the role set is empty — so the extracted roles value is always
an array, for every shape of claim values under either key. -/
theorem roles_two_step_truthy_lookup :
    ∀ (fields : List (String × JSValue)) (ns : String),
      extractRoles fields ns = extractRolesAmendedSpec fields ns := by
  intro fields ns
  simp only [extractRoles, extractRolesAmendedSpec, jsOr]
  cases h1 : jsTruthy (jsGet fields ns)
  · simp only [Bool.false_eq_true, if_false]
    cases h2 : jsTruthy (jsGet fields (ns ++ "_roles"))
    · cases hg : jsGet fields (ns ++ "_roles") <;> simp_all [jsTruthy]
    · simp
  · simp

/-- C9: the request body built by `handleSubmit` for generate-yaml and
the one built by `deployToOKD` for deploy-to-okd are equal for every
form state and user, and the two submission functions agree as a
whole. -/
theorem generate_and_deploy_bodies_equal :
    ∀ (f : FormState) (user : Option UserProfile),
      handleSubmitBody f user = deployToOKDBody f user ∧
      handleSubmit f user = deployToOKD f user :=
  fun _ _ => ⟨rfl, rfl⟩

/-- A `getClusterData` call that finds a fresh cache entry resolves the
cached response, leaves the cache unchanged and performs no fetch. -/
theorem getClusterData_cache_hit (o : FetchOutcome) (d : RespData) (t0 t : Nat)
    (h : t - t0 < ttlMs) :
    getClusterData o { clusterData := some d, clusterDataTimestamp := t0 } t =
      (d, { clusterData := some d, clusterDataTimestamp := t0 }, 0) := by
  simp [getClusterData, h]

/-- C2: after a successful fetch cached at `t0`, every `getClusterData`
call at a time within the TTL of `t0` resolves the cached response and
performs no fetch — across any sequence of such reads the cache is
unchanged and the total fetch count is zero — and the first call made
once the TTL has elapsed performs exactly one fetch. -/
theorem cached_reads_within_ttl :
    (∀ (d : RespData) (t0 : Nat) (o : FetchOutcome) (times : List Nat),
        (∀ t ∈ times, t0 ≤ t ∧ t - t0 < ttlMs) →
        runGets o { clusterData := some d, clusterDataTimestamp := t0 } times =
          ({ clusterData := some d, clusterDataTimestamp := t0 }, 0) ∧
        ∀ t ∈ times,
          (getClusterData o { clusterData := some d, clusterDataTimestamp := t0 } t).1 = d) ∧
    (∀ (d : RespData) (t0 t : Nat) (o : FetchOutcome),
        t0 + ttlMs ≤ t →
        (getClusterData o { clusterData := some d, clusterDataTimestamp := t0 } t).2.2 = 1) := by
  constructor
  · intro d t0 o times h
    constructor
    · induction times with
      | nil => rfl
      | cons t ts ih =>
        have ht := h t (List.mem_cons_self t ts)
        have hstep := getClusterData_cache_hit o d t0 t ht.2
        have hrest : ∀ u ∈ ts, t0 ≤ u ∧ u - t0 < ttlMs :=
          fun u hu => h u (List.mem_cons_of_mem t hu)
        simpa [runGets, hstep] using ih hrest
    · intro t ht
      have := getClusterData_cache_hit o d t0 t (h t ht).2
      simp [this]
  · intro d t0 t o h
    have hnot : ¬(t - t0 < ttlMs) := by omega
    simp only [getClusterData, hnot, if_false]
    cases o <;> rfl

/-- C2 witness: two reads at 5 ms and 10 ms after a fetch cached at time
0 leave the cache unchanged with zero fetches, and a read at exactly the
TTL boundary performs one fetch. -/
theorem cached_reads_within_ttl_witness :
    runGets (FetchOutcome.failure "down")
        { clusterData := some prevClusterResp, clusterDataTimestamp := 0 } [5, 10] =
      ({ clusterData := some prevClusterResp, clusterDataTimestamp := 0 }, 0) ∧
    (getClusterData (FetchOutcome.failure "down")
        { clusterData := some prevClusterResp, clusterDataTimestamp := 0 } ttlMs).2.2 = 1 :=
  ⟨(cached_reads_within_ttl.1 prevClusterResp 0 (FetchOutcome.failure "down") [5, 10]
      (by decide)).1,
   cached_reads_within_ttl.2 prevClusterResp 0 ttlMs (FetchOutcome.failure "down")
      (by decide)⟩

/-- C5 counterexample: with a previously fetched response in the cache
(holding namespace `demo`) and an expired TTL, a failing fetch resolves
the structured error value with empty lists — not the previous value;
no staleness flag exists on the resolved payload. -/
theorem failed_fetch_discards_previous_value :
    (getClusterData (FetchOutcome.failure "boom")
        { clusterData := some prevClusterResp, clusterDataTimestamp := 0 } ttlMs).1 ≠
      prevClusterResp ∧
    (getClusterData (FetchOutcome.failure "boom")
        { clusterData := some prevClusterResp, clusterDataTimestamp := 0 } ttlMs).1.namespaces =
      some [] ∧
    prevClusterResp.namespaces = some ["demo"] := by
  refine ⟨by decide, by decide, rfl⟩

/-- C5 (amended): when a `getClusterData` fetch attempt fails, the call
resolves — never raises to the caller — with the structured error value
(status `error`, the error message, and explicit empty namespace and
storage-class lists); the previously cached value, if any, is retained
in the cache but is not returned, and no staleness flag is attached. -/
theorem failed_fetch_returns_error_value :
    (∀ (m : String) (d : RespData) (t0 t : Nat),
        t0 + ttlMs ≤ t →
        getClusterData (FetchOutcome.failure m)
            { clusterData := some d, clusterDataTimestamp := t0 } t =
          (errorClusterResponse m,
            { clusterData := some d, clusterDataTimestamp := t0 }, 1)) ∧
    (∀ (m : String) (t0 t : Nat),
        getClusterData (FetchOutcome.failure m)
            { clusterData := none, clusterDataTimestamp := t0 } t =
          (errorClusterResponse m,
            { clusterData := none, clusterDataTimestamp := t0 }, 1)) := by
  constructor
  · intro m d t0 t h
    have hnot : ¬(t - t0 < ttlMs) := by omega
    simp [getClusterData, hnot, fetchFreshClusterData]
  · intro m t0 t
    rfl

/-- C5 witness: a failing fetch at exactly the TTL boundary over a cache
holding a previous response resolves the error value and keeps the cache
entry. -/
theorem failed_fetch_returns_error_value_witness :
    getClusterData (FetchOutcome.failure "boom")
        { clusterData := some prevClusterResp, clusterDataTimestamp := 0 } ttlMs =
      (errorClusterResponse "boom",
        { clusterData := some prevClusterResp, clusterDataTimestamp := 0 }, 1) :=
  failed_fetch_returns_error_value.1 "boom" prevClusterResp 0 ttlMs (by decide)

/-- C8 counterexample: the failed-fetch response of the cache layer
carries an explicit empty storage-class array, and on such a response
the deployment form's update adopts the empty list even though its
current list is empty — the configured fallback list is not
substituted. -/
theorem fallback_not_substituted_counterexample :
    (getClusterData (FetchOutcome.failure "down")
        { clusterData := none, clusterDataTimestamp := 0 } 0).1.storageClasses = some [] ∧
    fetchClusterDataStorageClasses (some []) [] = [] ∧
    fetchClusterDataStorageClasses (some []) [] ≠ fallbackStorageClasses := by
  refine ⟨rfl, rfl, by decide⟩

/-- C8 (amended): on a failed fetch the cache layer resolves an explicit
empty storage-class list rather than fabricating data; the deployment
form substitutes the configured fallback list only when the response
carries no storage-class array at all (absent or non-array) and its
current storage-class list is empty; when the response carries an array
— even the empty one produced by a failed fetch — the form adopts that
array unchanged. -/
theorem storage_class_fallback_behavior :
    (∀ (m : String) (t0 t : Nat),
        (getClusterData (FetchOutcome.failure m)
            { clusterData := none, clusterDataTimestamp := t0 } t).1.storageClasses =
          some []) ∧
    fetchClusterDataStorageClasses none [] = fallbackStorageClasses ∧
    (∀ current : List StorageClass,
        current ≠ [] → fetchClusterDataStorageClasses none current = current) ∧
    (∀ (xs current : List StorageClass),
        fetchClusterDataStorageClasses (some xs) current = xs) := by
  refine ⟨fun m t0 t => rfl, rfl, ?_, fun xs current => rfl⟩
  intro current hne
  have : current.length ≠ 0 := fun h => hne (List.length_eq_zero.mp h)
  simp [fetchClusterDataStorageClasses, this]

/-- C8 witness: a nonempty current storage-class list is kept when the
response carries no storage-class array. -/
theorem storage_class_fallback_behavior_witness :
    fetchClusterDataStorageClasses none fallbackStorageClasses = fallbackStorageClasses :=
  storage_class_fallback_behavior.2.2.1 fallbackStorageClasses (by decide)

/-- Generic length identity: a `filterMap` over an enumerated list whose
filter decision depends only on the element keeps exactly the elements
satisfying the predicate. -/
theorem length_filterMap_enumFrom {α β : Type} (P : α → Bool) (mk : Nat × α → β) :
    ∀ (l : List α) (n : Nat),
      ((List.enumFrom n l).filterMap (fun p => if P p.2 then some (mk p) else none)).length =
        (l.filter P).length := by
  intro l
  induction l with
  | nil => intro n; rfl
  | cons a t ih =>
    intro n
    by_cases h : P a <;>
      simp [List.enumFrom, List.filterMap_cons, List.filter_cons, h, ih]

theorem storageNameErrors_length (vols : List StorageDetail) :
    (storageNameErrors vols).length = (vols.filter badStorageName).length :=
  length_filterMap_enumFrom badStorageName
    (fun p => ("storage-" ++ toString p.1, "Volume " ++ p.2.name ++ ": Invalid name format"))
    vols 0

theorem secretNameErrors_length (secrets : List KVDetail) :
    (secretNameErrors secrets).length = (secrets.filter badKVName).length :=
  length_filterMap_enumFrom badKVName
    (fun p => ("secret-" ++ toString p.1, "Secret " ++ p.2.name ++ ": Invalid name format"))
    secrets 0

theorem configmapNameErrors_length (configmaps : List KVDetail) :
    (configmapNameErrors configmaps).length = (configmaps.filter badKVName).length :=
  length_filterMap_enumFrom badKVName
    (fun p => ("configmap-" ++ toString p.1, "ConfigMap " ++ p.2.name ++ ": Invalid name format"))
    configmaps 0

theorem validateForm_length (f : FormState) :
    (validateForm f).length =
      (if f.createNewNamespace && f.namespaceName != "" && !(validateResourceName f.namespaceName)
       then 1 else 0)
      + (if f.exposeRoute && f.routeHostname != "" && !(validateResourceName f.routeHostname)
         then 1 else 0)
      + (if f.storageRequired then (f.storageDetails.filter badStorageName).length else 0)
      + (if f.secretsRequired then (f.secretsDetails.filter badKVName).length else 0)
      + (if f.configmapsRequired then (f.configmapsDetails.filter badKVName).length else 0) := by
  simp only [validateForm, List.length_append, apply_ite List.length, List.length_nil,
    List.length_singleton, storageNameErrors_length, secretNameErrors_length,
    configmapNameErrors_length]

theorem validateForm_empty_iff (f : FormState) :
    validateForm f = [] ↔
      ((f.createNewNamespace = true → f.namespaceName ≠ "" →
          validateResourceName f.namespaceName = true) ∧
       (f.exposeRoute = true → f.routeHostname ≠ "" →
          validateResourceName f.routeHostname = true) ∧
       (f.storageRequired = true → ∀ v ∈ f.storageDetails,
          v.name ≠ "" → validateResourceName v.name = true) ∧
       (f.secretsRequired = true → ∀ v ∈ f.secretsDetails,
          v.name ≠ "" → validateResourceName v.name = true) ∧
       (f.configmapsRequired = true → ∀ v ∈ f.configmapsDetails,
          v.name ≠ "" → validateResourceName v.name = true)) := by
  rw [← List.length_eq_zero, validateForm_length f]
  constructor
  · intro h
    have z1 : (if f.createNewNamespace && f.namespaceName != "" &&
        !(validateResourceName f.namespaceName) then 1 else 0) = 0 := by omega
    have z2 : (if f.exposeRoute && f.routeHostname != "" &&
        !(validateResourceName f.routeHostname) then 1 else 0) = 0 := by omega
    have z3 : (if f.storageRequired then
        (f.storageDetails.filter badStorageName).length else 0) = 0 := by omega
    have z4 : (if f.secretsRequired then
        (f.secretsDetails.filter badKVName).length else 0) = 0 := by omega
    have z5 : (if f.configmapsRequired then
        (f.configmapsDetails.filter badKVName).length else 0) = 0 := by omega
    refine ⟨?_, ?_, ?_, ?_, ?_⟩
    · intro ha hb
      by_contra hv
      have hv' : validateResourceName f.namespaceName = false := by
        cases hval : validateResourceName f.namespaceName
        · rfl
        · exact absurd hval hv
      have hcond : (f.createNewNamespace && f.namespaceName != "" &&
          !(validateResourceName f.namespaceName)) = true := by
        simp [ha, hb, hv']
      rw [if_pos hcond] at z1
      exact one_ne_zero z1
    · intro ha hb
      by_contra hv
      have hv' : validateResourceName f.routeHostname = false := by
        cases hval : validateResourceName f.routeHostname
        · rfl
        · exact absurd hval hv
      have hcond : (f.exposeRoute && f.routeHostname != "" &&
          !(validateResourceName f.routeHostname)) = true := by
        simp [ha, hb, hv']
      rw [if_pos hcond] at z2
      exact one_ne_zero z2
    · intro ha v hv hn
      by_contra hval
      have hval' : validateResourceName v.name = false := by
        cases hx : validateResourceName v.name
        · rfl
        · exact absurd hx hval
      rw [ha] at z3
      simp only [if_pos] at z3
      have hfil := List.filter_eq_nil_iff.mp (List.length_eq_zero.mp z3) v hv
      simp [badStorageName, hn, hval'] at hfil
    · intro ha v hv hn
      by_contra hval
      have hval' : validateResourceName v.name = false := by
        cases hx : validateResourceName v.name
        · rfl
        · exact absurd hx hval
      rw [ha] at z4
      simp only [if_pos] at z4
      have hfil := List.filter_eq_nil_iff.mp (List.length_eq_zero.mp z4) v hv
      simp [badKVName, hn, hval'] at hfil
    · intro ha v hv hn
      by_contra hval
      have hval' : validateResourceName v.name = false := by
        cases hx : validateResourceName v.name
        · rfl
        · exact absurd hx hval
      rw [ha] at z5
      simp only [if_pos] at z5
      have hfil := List.filter_eq_nil_iff.mp (List.length_eq_zero.mp z5) v hv
      simp [badKVName, hn, hval'] at hfil
  · intro hc
    obtain ⟨h1, h2, h3, h4, h5⟩ := hc
    have e1 : (if f.createNewNamespace && f.namespaceName != "" &&
        !(validateResourceName f.namespaceName) then 1 else 0) = 0 := by
      by_cases hcond : (f.createNewNamespace && f.namespaceName != "" &&
          !(validateResourceName f.namespaceName)) = true
      · exfalso
        rw [Bool.and_eq_true, Bool.and_eq_true] at hcond
        obtain ⟨⟨ha, hb⟩, hcv⟩ := hcond
        have hok := h1 ha (by simpa using hb)
        rw [hok] at hcv
        simp at hcv
      · exact if_neg hcond
    have e2 : (if f.exposeRoute && f.routeHostname != "" &&
        !(validateResourceName f.routeHostname) then 1 else 0) = 0 := by
      by_cases hcond : (f.exposeRoute && f.routeHostname != "" &&
          !(validateResourceName f.routeHostname)) = true
      · exfalso
        rw [Bool.and_eq_true, Bool.and_eq_true] at hcond
        obtain ⟨⟨ha, hb⟩, hcv⟩ := hcond
        have hok := h2 ha (by simpa using hb)
        rw [hok] at hcv
        simp at hcv
      · exact if_neg hcond
    have e3 : (if f.storageRequired then
        (f.storageDetails.filter badStorageName).length else 0) = 0 := by
      cases hr : f.storageRequired
      · simp
      · have hfil : f.storageDetails.filter badStorageName = [] := by
          refine List.filter_eq_nil_iff.mpr ?_
          intro v hv hbad
          simp only [badStorageName, Bool.and_eq_true] at hbad
          obtain ⟨hn, hcv⟩ := hbad
          have hok := h3 hr v hv (by simpa using hn)
          rw [hok] at hcv
          simp at hcv
        simp [hfil]
    have e4 : (if f.secretsRequired then
        (f.secretsDetails.filter badKVName).length else 0) = 0 := by
      cases hr : f.secretsRequired
      · simp
      · have hfil : f.secretsDetails.filter badKVName = [] := by
          refine List.filter_eq_nil_iff.mpr ?_
          intro v hv hbad
          simp only [badKVName, Bool.and_eq_true] at hbad
          obtain ⟨hn, hcv⟩ := hbad
          have hok := h4 hr v hv (by simpa using hn)
          rw [hok] at hcv
          simp at hcv
        simp [hfil]
    have e5 : (if f.configmapsRequired then
        (f.configmapsDetails.filter badKVName).length else 0) = 0 := by
      cases hr : f.configmapsRequired
      · simp
      · have hfil : f.configmapsDetails.filter badKVName = [] := by
          refine List.filter_eq_nil_iff.mpr ?_
          intro v hv hbad
          simp only [badKVName, Bool.and_eq_true] at hbad
          obtain ⟨hn, hcv⟩ := hbad
          have hok := h5 hr v hv (by simpa using hn)
          rw [hok] at hcv
          simp at hcv
        simp [hfil]
    omega

/-- C6 (amended): `validateForm` collects all violations before
returning, not just the first — one recorded violation for every invalid
nonempty name among the namespace (when `createNewNamespace` is set),
the route hostname (when `exposeRoute` is set), and each storage volume,
secret entry and configmap entry (when the corresponding section is
enabled) — and submission (generate-yaml or deploy) proceeds exactly
when this collected set is empty. -/
theorem validateForm_collects_all_guarded_violations :
    (∀ (f : FormState) (user : Option UserProfile),
        (handleSubmit f user ≠ none ↔ validateForm f = []) ∧
        (deployToOKD f user ≠ none ↔ validateForm f = [])) ∧
    (∀ f : FormState,
        (validateForm f).length =
          (if f.createNewNamespace && f.namespaceName != "" &&
              !(validateResourceName f.namespaceName) then 1 else 0)
          + (if f.exposeRoute && f.routeHostname != "" &&
              !(validateResourceName f.routeHostname) then 1 else 0)
          + (if f.storageRequired then
              (f.storageDetails.filter badStorageName).length else 0)
          + (if f.secretsRequired then
              (f.secretsDetails.filter badKVName).length else 0)
          + (if f.configmapsRequired then
              (f.configmapsDetails.filter badKVName).length else 0)) ∧
    (∀ f : FormState,
        validateForm f = [] ↔
          ((f.createNewNamespace = true → f.namespaceName ≠ "" →
              validateResourceName f.namespaceName = true) ∧
           (f.exposeRoute = true → f.routeHostname ≠ "" →
              validateResourceName f.routeHostname = true) ∧
           (f.storageRequired = true → ∀ v ∈ f.storageDetails,
              v.name ≠ "" → validateResourceName v.name = true) ∧
           (f.secretsRequired = true → ∀ v ∈ f.secretsDetails,
              v.name ≠ "" → validateResourceName v.name = true) ∧
           (f.configmapsRequired = true → ∀ v ∈ f.configmapsDetails,
              v.name ≠ "" → validateResourceName v.name = true))) := by
  refine ⟨?_, validateForm_length, validateForm_empty_iff⟩
  intro f user
  rw [← List.length_eq_zero]
  constructor <;>
    (by_cases h : (validateForm f).length = 0 <;> simp [handleSubmit, deployToOKD, h])

/-- C6 counterexample: a form whose namespace field holds the invalid
name `Demo_NS` while `createNewNamespace` is unset produces no recorded
violation, and submission proceeds — so `validateForm` does not record a
violation for every invalid name among the claim's listed fields. -/
theorem invalid_name_without_violation :
    validateResourceName invalidNamespaceForm.namespaceName = false ∧
    validateForm invalidNamespaceForm = [] ∧
    handleSubmit invalidNamespaceForm none =
      some (handleSubmitBody invalidNamespaceForm none) := by
  refine ⟨by decide, by decide, by decide⟩

/-- C6 witness: the guarded characterization applied at a concrete valid
form. -/
theorem validateForm_collects_witness :
    (handleSubmit routeForm none ≠ none ↔ validateForm routeForm = []) ∧
    validateForm routeForm = [] :=
  ⟨(validateForm_collects_all_guarded_violations.1 routeForm none).1,
   (validateForm_collects_all_guarded_violations.2.2 routeForm).mpr (by decide)⟩

/-- C7: every submitted deployment request (generate-yaml and deploy)
carries a route host equal to `routeHostname ++ "." ++ routeDomain` when
`exposeRoute` is true — hostname `app` with domain `example.com` yields
`app.example.com` — and the empty string when `exposeRoute` is false. -/
theorem route_host_is_hostname_dot_domain :
    (∀ (f : FormState) (user : Option UserProfile) (b : DeploymentData),
        handleSubmit f user = some b →
          b.routeHostname =
            if f.exposeRoute then f.routeHostname ++ "." ++ f.routeDomain else "") ∧
    (∀ (f : FormState) (user : Option UserProfile) (b : DeploymentData),
        deployToOKD f user = some b →
          b.routeHostname =
            if f.exposeRoute then f.routeHostname ++ "." ++ f.routeDomain else "") ∧
    (∀ (f : FormState) (user : Option UserProfile),
        f.exposeRoute = true → f.routeHostname = "app" → f.routeDomain = "example.com" →
          (handleSubmitBody f user).routeHostname = "app.example.com") ∧
    (∀ (f : FormState) (user : Option UserProfile),
        f.exposeRoute = false → (handleSubmitBody f user).routeHostname = "") := by
  refine ⟨?_, ?_, ?_, ?_⟩
  · intro f user b h
    by_cases hv : (validateForm f).length = 0
    · simp only [handleSubmit, hv, if_pos, Option.some.injEq] at h
      rw [← h]
      rfl
    · simp [handleSubmit, hv] at h
  · intro f user b h
    by_cases hv : (validateForm f).length = 0
    · simp only [deployToOKD, hv, if_pos, Option.some.injEq] at h
      rw [← h]
      rfl
    · simp [deployToOKD, hv] at h
  · intro f user h1 h2 h3
    simp [handleSubmitBody, h1, h2, h3]
  · intro f user h1
    simp [handleSubmitBody, h1]

/-- C7 witness: the route-host law applied at a concrete submitted
form. -/
theorem route_host_witness :
    (handleSubmitBody routeForm none).routeHostname =
      (if routeForm.exposeRoute then
        routeForm.routeHostname ++ "." ++ routeForm.routeDomain else "") ∧
    (handleSubmitBody routeForm none).routeHostname = "app.example.com" :=
  ⟨route_host_is_hostname_dot_domain.1 routeForm none
      (handleSubmitBody routeForm none) (by decide),
   route_host_is_hostname_dot_domain.2.2.1 routeForm none rfl rfl rfl⟩

/-- C10: the provider's initial state has a null access token, empty
roles and `isAdmin = false`; any token-refresh effect run with
`isAuthenticated = false` resets exactly to that state; and after any
sequence of effect runs whose last run had `isAuthenticated = false`,
the provider is back in that clean unauthenticated state — so `isAdmin`
can hold only while the latest effect run was authenticated. -/
theorem unauthenticated_state_is_clean :
    (initialAuthState.accessToken = none ∧ initialAuthState.userRoles = [] ∧
      initialAuthState.isAdmin = false) ∧
    (∀ (claims : Option Claims) (ns adminRole : String) (s : AuthState),
        getTokenEffect false claims ns adminRole s = initialAuthState) ∧
    (∀ (ns adminRole : String) (s : AuthState) (l : List EffectInput) (x : EffectInput),
        l.getLast? = some x → x.isAuthenticated = false →
          runAuthTrace ns adminRole s l = initialAuthState) := by
  refine ⟨⟨rfl, rfl, rfl⟩, ?_, ?_⟩
  · intro claims ns adminRole s
    cases claims <;> rfl
  · intro ns adminRole s l
    induction l using List.reverseRecOn with
    | nil => intro x hx; simp at hx
    | append_singleton t a ih =>
      intro x hx hauth
      have hax : a = x := by simpa using hx
      subst hax
      rw [runAuthTrace, List.foldl_append]
      simp only [List.foldl_cons, List.foldl_nil]
      rw [hauth]
      cases a.claims <;> rfl

/-- C10 witness: a trace that authenticates as admin and then runs the
effect unauthenticated ends in the clean initial state. -/
theorem unauthenticated_state_witness :
    runAuthTrace "custom_roles" "OKD_Admin" initialAuthState
        [{ isAuthenticated := true, claims := some adminClaims },
         { isAuthenticated := false, claims := none }] = initialAuthState :=
  unauthenticated_state_is_clean.2.2 "custom_roles" "OKD_Admin" initialAuthState
    [{ isAuthenticated := true, claims := some adminClaims },
     { isAuthenticated := false, claims := none }]
    { isAuthenticated := false, claims := none } (by decide) rfl
